import Mathlib

/-!
Verification of the native socket-configuration core of js-mdns
(src/native/napi/socketUtils.cpp and src/native/napi/index.cpp).

The two C++ translation units are shallowly embedded: each OS call
(setsockopt, getsockname, socket, getaddrinfo, bind) is an input supplied
by an explicit environment record, and each function is a pure Lean
function of that environment which additionally returns the list of
OS calls it actually performed, in program order, so that claims about
"attempted" calls and about side-effect ordering become statements about
that list.
-/

/-- Linux value of the address-family constant AF_INET. -/
def AF_INET : Nat := 2

/-- Linux value of the address-family constant AF_INET6. -/
def AF_INET6 : Nat := 10

/-! ## socketUtils.cpp : DisableMulticastAll -/

/-- Environment of one DisableMulticastAll call: the return values the OS
produces for each system call the function can make on `sockfd`.
`getsocknameFamily` is the value found in `sockaddr.ss_family` after the
`getsockname` call: when that call fails (`getsocknameRet < 0`) the C code
reads the field of the stack `sockaddr_storage` uninitialized, so the field
is an arbitrary value supplied here by the environment. -/
structure MulticastEnv where
  setsockoptV4 : Int
  setsockoptV6 : Int
  getsocknameRet : Int
  getsocknameFamily : Nat
deriving DecidableEq, Repr

/-- The two setsockopt calls DisableMulticastAll can attempt:
`setsockopt(fd, IPPROTO_IP, IP_MULTICAST_ALL, ...)` and
`setsockopt(fd, IPPROTO_IPV6, IPV6_MULTICAST_ALL, ...)`. -/
inductive SockoptCall where
  | ipv4MulticastAll
  | ipv6MulticastAll
deriving DecidableEq, Repr

/-- The OS return value of a given setsockopt call in environment `env`. -/
def callRet (env : MulticastEnv) : SockoptCall → Int
  | SockoptCall.ipv4MulticastAll => env.setsockoptV4
  | SockoptCall.ipv6MulticastAll => env.setsockoptV6

/-- Embedding of `bool DisableMulticastAll(int sockfd)` from
socketUtils.cpp. The C code is:
`success = setsockopt(IP_MULTICAST_ALL) >= 0;` then `getsockname(...)`
(its return value is never inspected), then
`if (sockaddr.ss_family == AF_INET6) success = success && (setsockopt(IPV6_MULTICAST_ALL) >= 0);`.
C `&&` short-circuits, so the IPv6 setsockopt is executed only when
`success` is still true. The second component lists the setsockopt calls
actually performed, in order. -/
def DisableMulticastAll (env : MulticastEnv) : Bool × List SockoptCall :=
  let success := decide (0 ≤ env.setsockoptV4)
  if env.getsocknameFamily = AF_INET6 then
    if success then
      (decide (0 ≤ env.setsockoptV6),
        [SockoptCall.ipv4MulticastAll, SockoptCall.ipv6MulticastAll])
    else
      (false, [SockoptCall.ipv4MulticastAll])
  else
    (success, [SockoptCall.ipv4MulticastAll])

/-! ## index.cpp : disableSocketMulticastAll wrapper -/

/-- Embedding of `disableSocketMulticastAll` from index.cpp: it converts
its argument, calls DisableMulticastAll and marshals the C++ bool back as
a boolean value, with no exception path. -/
def disableSocketMulticastAll (env : MulticastEnv) : Bool :=
  (DisableMulticastAll env).1

/-! ## index.cpp : bindDgramFd -/

/-- Embedding of `htons` applied to the C `int` port: the int is first
converted to `uint16_t` (reduction modulo 2^16, nonnegative) and the two
bytes are then swapped into network byte order. -/
def htons (port : Int) : Nat :=
  let p := (port % 65536).toNat
  (p % 256) * 256 + p / 256

/-- The bytes of a socket address structure as used by bindDgramFd: both
`sockaddr_in` and `sockaddr_in6` store the network-order port in the same
two bytes (`sin_port` / `sin6_port`); `rest` is every other byte of the
structure, which the port overlay never touches. -/
structure SockAddrBuf where
  port : Nat
  rest : List Nat
deriving DecidableEq, Repr

/-- One `addrinfo` record produced by getaddrinfo: its `ai_family` tag and
the socket address `ai_addr` points to. -/
structure AddrInfo where
  ai_family : Nat
  ai_addr : SockAddrBuf
deriving DecidableEq, Repr

/-- Environment of one bindDgramFd call: `resolver` is the OS name
resolution performed by `getaddrinfo(address, NULL, NULL, &result)` —
the hints argument is NULL, i.e. the lookup is unconstrained by address
family, socket type or protocol — returning `none` exactly when
getaddrinfo returns nonzero; `socketRet` is the descriptor value returned
by the `socket(family, SOCK_DGRAM, 0)` call. -/
structure BindEnv where
  resolver : String → Option AddrInfo
  socketRet : Int

/-- The port-overlay cast bindDgramFd selects:
`(sockaddr_in *)` when `result->ai_family == AF_INET`, otherwise
`(sockaddr_in6 *)`. -/
inductive PortLayout where
  | sockaddr_in
  | sockaddr_in6
deriving DecidableEq, Repr

/-- The observable OS effects of a bindDgramFd call, in program order. -/
inductive BindEvent where
  | socketCreate (family : Nat) (fd : Int)
  | resolve (address : String)
  | portWrite (layout : PortLayout) (value : Nat)
  | bindCall (fd : Int) (addr : AddrInfo)
deriving DecidableEq, Repr

/-- The outcome bindDgramFd delivers to the caller: the created descriptor,
or a thrown JavaScript error with the given message. -/
inductive BindResult where
  | ok (fd : Int)
  | err (message : String)
deriving DecidableEq, Repr

/-- Family selection of bindDgramFd:
`int family = AF_INET; if (udpType.compare("udp6") == 0) family = AF_INET6;`. -/
def selectedFamily (udpType : String) : Nat :=
  if udpType = "udp6" then AF_INET6 else AF_INET

/-- Address selection of bindDgramFd: the supplied `bindOptions.address`
when it is a string, otherwise the selected family's wildcard text
(`"0.0.0.0"` for AF_INET, `"::0"` for AF_INET6). -/
def effectiveAddress (udpType : String) (addressValue : Option String) : String :=
  match addressValue with
  | some a => a
  | none => if selectedFamily udpType = AF_INET then "0.0.0.0" else "::0"

/-- Embedding of `bindDgramFd` from index.cpp. The C code, in order:
selects the family from the socket type tag, calls
`socket(family, SOCK_DGRAM, 0)`, chooses the address text, calls
`getaddrinfo(address, NULL, NULL, &result)`; on nonzero return it throws
"Invalid Address" and returns; otherwise, when `bindOptions.port` is a
number it stores `htons(port)` into `sin_port` or `sin6_port` of
`result->ai_addr` according to `result->ai_family`, then calls
`bind(sockfd, result->ai_addr, result->ai_addrlen)` (whose return value is
ignored) and returns `sockfd`. The second component is the OS-effect
trace in program order. -/
def bindDgramFd (env : BindEnv) (udpType : String)
    (addressValue : Option String) (portValue : Option Int) :
    BindResult × List BindEvent :=
  match env.resolver (effectiveAddress udpType addressValue) with
  | none =>
      (BindResult.err "Invalid Address",
        [BindEvent.socketCreate (selectedFamily udpType) env.socketRet,
         BindEvent.resolve (effectiveAddress udpType addressValue)])
  | some result =>
      match portValue with
      | some port =>
          (BindResult.ok env.socketRet,
            [BindEvent.socketCreate (selectedFamily udpType) env.socketRet,
             BindEvent.resolve (effectiveAddress udpType addressValue),
             BindEvent.portWrite
               (if result.ai_family = AF_INET then PortLayout.sockaddr_in
                else PortLayout.sockaddr_in6) (htons port),
             BindEvent.bindCall env.socketRet
               ⟨result.ai_family, ⟨htons port, result.ai_addr.rest⟩⟩])
      | none =>
          (BindResult.ok env.socketRet,
            [BindEvent.socketCreate (selectedFamily udpType) env.socketRet,
             BindEvent.resolve (effectiveAddress udpType addressValue),
             BindEvent.bindCall env.socketRet result])

/-! ## index.cpp : Init -/

/-- The native functions index.cpp defines and could register on the
exports object. -/
inductive NativeFn where
  | disableSocketMulticastAllFn
  | bindDgramFdFn
deriving DecidableEq, Repr

/-- Embedding of `Init` from index.cpp: it performs exactly one
`exports.Set("disableSocketMulticastAll", ...)` and returns the exports
object; no other function is registered. -/
def Init (exports : List (String × NativeFn)) : List (String × NativeFn) :=
  ("disableSocketMulticastAll", NativeFn.disableSocketMulticastAllFn) :: exports

/-- The exported surface of the module after initialization of an empty
exports object. -/
def moduleExports : List (String × NativeFn) := Init []

/-! ## Concrete resolver environments used by counterexamples -/

/-- A resolver on which every lookup fails, as getaddrinfo does on a
syntactically invalid name such as "not-an-address!!". -/
def noResolver : String → Option AddrInfo := fun _ => none

/-- The address bytes of the IPv6 loopback ::1 as found past the port in a
`sockaddr_in6`. -/
def loopback6Rest : List Nat := [0, 0, 0, 0, 0, 0, 0, 0, 0, 0, 0, 0, 0, 0, 0, 1]

/-- A resolver behaving as `getaddrinfo(s, NULL, NULL, &result)` does on
the numeric literal "::1": NULL hints mean `ai_family = AF_UNSPEC`, so the
lookup returns an AF_INET6 record for an IPv6 literal regardless of which
family the caller of bindDgramFd selected. -/
def loopback6Resolver : String → Option AddrInfo := fun s =>
  if s = "::1" then some ⟨AF_INET6, ⟨0, loopback6Rest⟩⟩ else none

/-! ## Spec-side interpretation of "textual wildcard form"

The following definitions follow the spec's words, not the source: they
interpret a string as a textual form of the all-zeros (wildcard) address,
so that the code's default strings can be compared against the spec's
"the family's textual wildcard form". -/

/-- Split a character list into the groups separated by `sep`. -/
def splitGroups (sep : Char) : List Char → List (List Char)
  | [] => [[]]
  | c :: rest =>
    match splitGroups sep rest with
    | [] => [[]]
    | g :: gs => if c = sep then [] :: g :: gs else (c :: g) :: gs

/-- A nonempty digit group denoting zero (all characters are the digit 0;
in both decimal and hexadecimal such a group has value zero). -/
def groupIsZero (g : List Char) : Bool :=
  !g.isEmpty && g.all (fun c => c = '0')

/-- Whether the character list contains two adjacent separators, i.e. the
"::" elision of an IPv6 address text when `sep` is a colon. -/
def hasDoubleSep (sep : Char) : List Char → Bool
  | c1 :: c2 :: rest => (c1 = sep && c2 = sep) || hasDoubleSep sep (c2 :: rest)
  | _ => false

/-- Spec-side predicate: the string is a dotted-decimal text of the IPv4
all-zeros wildcard — four groups, each denoting zero. -/
def textIsIPv4AllZeros (s : String) : Bool :=
  let gs := splitGroups '.' s.toList
  gs.length == 4 && gs.all groupIsZero

/-- Spec-side predicate: the string is a textual form of the IPv6
all-zeros wildcard per the RFC 4291 grammar restricted to zero values —
every colon-separated group is empty (part of an elision) or denotes
zero, and either all eight groups are written or a "::" elision stands
for the missing zero groups. -/
def textIsIPv6AllZeros (s : String) : Bool :=
  let cs := s.toList
  let gs := splitGroups ':' cs
  gs.all (fun g => g.isEmpty || groupIsZero g) &&
    ((gs.length == 8 && gs.all groupIsZero) ||
      (hasDoubleSep ':' cs && decide (gs.length ≤ 8)))

/-! ## Claims about DisableMulticastAll -/

/-- C4: for every socket descriptor (i.e. every environment of OS call
outcomes), DisableMulticastAll returns true if and only if every
setsockopt call it attempted returned success (a nonnegative value); in
particular it returns false whenever any attempted call fails. -/
theorem disableMulticastAll_true_iff_attempted_succeed (env : MulticastEnv) :
    (DisableMulticastAll env).1 = true ↔
      ∀ c ∈ (DisableMulticastAll env).2, 0 ≤ callRet env c := by
  unfold DisableMulticastAll
  by_cases h6 : env.getsocknameFamily = AF_INET6 <;>
    by_cases h4 : (0 : Int) ≤ env.setsockoptV4 <;>
      simp [h4, h6, callRet]

/-- C5 counterexample: an environment where the IPv4 setsockopt fails and
the local-address lookup reports AF_INET6; the claim says the IPv6 option
is attempted exactly when the family is IPv6, but here the family is IPv6
and the IPv6 setsockopt is not attempted (C short-circuit `&&`). -/
theorem disableMulticastAll_skips_ipv6_after_ipv4_failure :
    (⟨-1, 0, 0, AF_INET6⟩ : MulticastEnv).getsocknameFamily = AF_INET6 ∧
      SockoptCall.ipv6MulticastAll ∉
        (DisableMulticastAll ⟨-1, 0, 0, AF_INET6⟩).2 := by
  decide

/-- C5 amended: DisableMulticastAll always attempts the IPv4 multicast-all
option, and attempts the IPv6 multicast-all option exactly when the family
probed from the socket's local address is AF_INET6 and the IPv4 attempt
succeeded (the `&&` short-circuits after an IPv4 failure). -/
theorem disableMulticastAll_attempt_conditions (env : MulticastEnv) :
    SockoptCall.ipv4MulticastAll ∈ (DisableMulticastAll env).2 ∧
      (SockoptCall.ipv6MulticastAll ∈ (DisableMulticastAll env).2 ↔
        env.getsocknameFamily = AF_INET6 ∧ 0 ≤ env.setsockoptV4) := by
  unfold DisableMulticastAll
  by_cases h6 : env.getsocknameFamily = AF_INET6 <;>
    by_cases h4 : (0 : Int) ≤ env.setsockoptV4 <;>
      simp [h4, h6]

/-- C9: disableSocketMulticastAll folds every failure into a false return
value and never raises: on an invalid or closed descriptor every OS call
fails, in particular the IPv4 setsockopt, and then the result is false;
and more generally whenever any setsockopt call it attempted fails the
result is false. -/
theorem disableSocketMulticastAll_failure_false :
    (∀ env : MulticastEnv,
        env.setsockoptV4 < 0 → disableSocketMulticastAll env = false) ∧
      (∀ env : MulticastEnv, ∀ c ∈ (DisableMulticastAll env).2,
        callRet env c < 0 → disableSocketMulticastAll env = false) := by
  constructor
  · intro env h
    unfold disableSocketMulticastAll DisableMulticastAll
    by_cases h6 : env.getsocknameFamily = AF_INET6 <;>
      simp [h6, not_le.mpr h]
  · intro env c hc hfail
    unfold disableSocketMulticastAll DisableMulticastAll
    unfold DisableMulticastAll at hc
    by_cases h6 : env.getsocknameFamily = AF_INET6 <;>
      by_cases h4 : (0 : Int) ≤ env.setsockoptV4 <;>
        simp [h4, h6] at hc ⊢ <;>
          cases c <;> simp_all [callRet] <;> omega

/-- C9 witness: on an environment where every OS call fails (as with a
closed descriptor) the wrapper returns false. -/
theorem disableSocketMulticastAll_failure_false_witness :
    disableSocketMulticastAll ⟨-1, -1, -1, 0⟩ = false :=
  disableSocketMulticastAll_failure_false.1 ⟨-1, -1, -1, 0⟩ (by decide)

/-- C10: the return value of the getsockname lookup is never inspected —
the result of DisableMulticastAll is invariant under changing it — and
when the lookup fails the uninitialized `ss_family` junk decides whether
the IPv6 option is attempted: two environments that agree on every
setsockopt outcome and both have a failing getsockname (return -1) but
carry different junk family values produce different boolean results, so
the result is not determined by the descriptor's OS behavior alone. -/
theorem disableMulticastAll_getsockname_unchecked :
    (∀ (e : MulticastEnv) (r : Int),
        DisableMulticastAll ⟨e.setsockoptV4, e.setsockoptV6, r, e.getsocknameFamily⟩ =
          DisableMulticastAll e) ∧
      (DisableMulticastAll ⟨0, -1, -1, AF_INET⟩).1 = true ∧
      (DisableMulticastAll ⟨0, -1, -1, AF_INET6⟩).1 = false := by
  refine ⟨fun e r => ?_, by decide, by decide⟩
  unfold DisableMulticastAll
  rfl

/-! ## Claims about bindDgramFd -/

/-- C1 counterexample: with a resolver on which "not-an-address!!" fails,
bindDgramFd raises "Invalid Address", but the trace shows the
`socket(AF_INET, SOCK_DGRAM, 0)` call already happened before resolution
failed — refuting "no socket has been created before resolution failure is
reported". -/
theorem bindDgramFd_socketCreatedBeforeResolutionFailure :
    (bindDgramFd ⟨noResolver, 7⟩ "udp4" (some "not-an-address!!") (some 80)).1 =
        BindResult.err "Invalid Address" ∧
      (bindDgramFd ⟨noResolver, 7⟩ "udp4" (some "not-an-address!!") (some 80)).2 =
        [BindEvent.socketCreate AF_INET 7,
         BindEvent.resolve "not-an-address!!"] := by
  decide

/-- C1 amended: whenever resolution of the submitted address yields no
result, bindDgramFd raises the "Invalid Address" error and performs no
port write and no bind call, but the UDP socket has already been created
before resolution (the socket() call precedes getaddrinfo in the trace)
and the descriptor is neither closed nor returned. -/
theorem bindDgramFd_resolutionFailure_raisesInvalidAddress
    (env : BindEnv) (udpType : String) (addressValue : Option String)
    (portValue : Option Int)
    (h : env.resolver (effectiveAddress udpType addressValue) = none) :
    (bindDgramFd env udpType addressValue portValue).1 =
        BindResult.err "Invalid Address" ∧
      (bindDgramFd env udpType addressValue portValue).2 =
        [BindEvent.socketCreate (selectedFamily udpType) env.socketRet,
         BindEvent.resolve (effectiveAddress udpType addressValue)] := by
  unfold bindDgramFd
  rw [h]
  exact ⟨rfl, rfl⟩

/-- C1 amended witness: concrete instantiation on the failing resolver. -/
theorem bindDgramFd_resolutionFailure_witness :
    (bindDgramFd ⟨noResolver, 3⟩ "udp6" none none).1 =
        BindResult.err "Invalid Address" ∧
      (bindDgramFd ⟨noResolver, 3⟩ "udp6" none none).2 =
        [BindEvent.socketCreate (selectedFamily "udp6") 3,
         BindEvent.resolve (effectiveAddress "udp6" none)] :=
  bindDgramFd_resolutionFailure_raisesInvalidAddress ⟨noResolver, 3⟩
    "udp6" none none rfl

/-- C2 counterexample: after Init runs on an empty exports object the
exported surface is exactly the single entry disableSocketMulticastAll;
no entry named bindDatagramSocket (nor the native name bindDgramFd) is
present, refuting that the surface contains the bind operation. -/
theorem moduleExports_missing_bindDgramFd :
    moduleExports =
        [("disableSocketMulticastAll", NativeFn.disableSocketMulticastAllFn)] ∧
      ("bindDatagramSocket", NativeFn.bindDgramFdFn) ∉ moduleExports ∧
      ("bindDgramFd", NativeFn.bindDgramFdFn) ∉ moduleExports := by
  decide

/-- C2 amended: after initialization the exported surface contains
disableSocketMulticastAll and nothing else: bindDgramFd is defined in the
translation unit but Init never registers it on the exports object. -/
theorem moduleExports_only_disableSocketMulticastAll :
    ("disableSocketMulticastAll", NativeFn.disableSocketMulticastAllFn) ∈
        moduleExports ∧
      ∀ e ∈ moduleExports,
        e = ("disableSocketMulticastAll", NativeFn.disableSocketMulticastAllFn) := by
  constructor
  · decide
  · intro e he
    simpa [moduleExports, Init] using he

/-- C2 amended witness: the unique exported entry is the multicast one. -/
theorem moduleExports_only_witness :
    ("disableSocketMulticastAll", NativeFn.disableSocketMulticastAllFn) =
      ("disableSocketMulticastAll", NativeFn.disableSocketMulticastAllFn) :=
  moduleExports_only_disableSocketMulticastAll.2
    ("disableSocketMulticastAll", NativeFn.disableSocketMulticastAllFn)
    (by decide)

/-- C3 counterexample: the call bindDgramFd("udp4", address "::1")
selects AF_INET from the tag, yet getaddrinfo (NULL hints, hence
AF_UNSPEC) resolves "::1" to an AF_INET6 record, and the call succeeds
with the bind performed on that AF_INET6 address: the selected family
differs from the family of the ResolvedAddress used for binding. -/
theorem bindDgramFd_selectedFamily_mismatch :
    selectedFamily "udp4" = AF_INET ∧
      bindDgramFd ⟨loopback6Resolver, 7⟩ "udp4" (some "::1") none =
        (BindResult.ok 7,
          [BindEvent.socketCreate AF_INET 7,
           BindEvent.resolve "::1",
           BindEvent.bindCall 7 ⟨AF_INET6, ⟨0, loopback6Rest⟩⟩]) ∧
      AF_INET6 ≠ AF_INET := by
  refine ⟨rfl, ?_, by decide⟩
  decide

/-- C3 amended: on every successful call the address handed to bind and
the port-overlay layout are governed by the resolved record's own family —
the bindCall carries exactly the resolver's family, and a port write uses
the sockaddr_in layout precisely when that family is AF_INET — while the
family selected from the tag only determines the socketCreate call; the
selected family need not equal the resolved family, since resolution runs
with NULL hints. -/
theorem bindDgramFd_bindsResolvedFamily
    (env : BindEnv) (udpType : String) (addressValue : Option String)
    (portValue : Option Int) (r : AddrInfo)
    (h : env.resolver (effectiveAddress udpType addressValue) = some r) :
    (bindDgramFd env udpType addressValue portValue).1 =
        BindResult.ok env.socketRet ∧
      (∀ fd a, BindEvent.bindCall fd a ∈
          (bindDgramFd env udpType addressValue portValue).2 →
        a.ai_family = r.ai_family) ∧
      (∀ l v, BindEvent.portWrite l v ∈
          (bindDgramFd env udpType addressValue portValue).2 →
        (l = PortLayout.sockaddr_in ↔ r.ai_family = AF_INET)) ∧
      BindEvent.socketCreate (selectedFamily udpType) env.socketRet ∈
        (bindDgramFd env udpType addressValue portValue).2 := by
  unfold bindDgramFd
  rw [h]
  cases portValue with
  | none =>
      refine ⟨rfl, ?_, ?_, by simp⟩
      · intro fd a ha
        simp only [List.mem_cons, List.not_mem_nil, or_false] at ha
        rcases ha with h1 | h1 | h1 <;> first
          | (cases h1; rfl)
          | cases h1
      · intro l v hl
        simp at hl
  | some port =>
      refine ⟨rfl, ?_, ?_, by simp⟩
      · intro fd a ha
        simp only [List.mem_cons, List.not_mem_nil, or_false] at ha
        rcases ha with h1 | h1 | h1 | h1 <;> first
          | (cases h1; rfl)
          | cases h1
      · intro l v hl
        simp only [List.mem_cons, List.not_mem_nil, or_false] at hl
        rcases hl with h1 | h1 | h1 | h1 <;> try cases h1
        by_cases hf : r.ai_family = AF_INET <;> simp_all

/-- C3 amended witness: concrete instantiation where the resolver returns
an AF_INET6 record for "::1" while the tag "udp4" selected AF_INET. -/
theorem bindDgramFd_bindsResolvedFamily_witness :
    (bindDgramFd ⟨loopback6Resolver, 7⟩ "udp4" (some "::1") (some 9999)).1 =
      BindResult.ok 7 :=
  (bindDgramFd_bindsResolvedFamily ⟨loopback6Resolver, 7⟩ "udp4"
    (some "::1") (some 9999) ⟨AF_INET6, ⟨0, loopback6Rest⟩⟩ rfl).1

/-- C6: on every successful call, if a port is supplied the trace carries
a write of `htons port` through the layout selected by the resolved
family (sockaddr_in for AF_INET, sockaddr_in6 otherwise, in particular
for AF_INET6), and the bind uses the resolved record with its port bytes
replaced by `htons port` and every other byte unchanged; if no port is
supplied the bind uses the resolved record exactly as returned, with no
port write. -/
theorem bindDgramFd_portOverlay
    (env : BindEnv) (udpType : String) (addressValue : Option String)
    (r : AddrInfo) (port : Int)
    (h : env.resolver (effectiveAddress udpType addressValue) = some r) :
    (bindDgramFd env udpType addressValue (some port)).2 =
        [BindEvent.socketCreate (selectedFamily udpType) env.socketRet,
         BindEvent.resolve (effectiveAddress udpType addressValue),
         BindEvent.portWrite
           (if r.ai_family = AF_INET then PortLayout.sockaddr_in
            else PortLayout.sockaddr_in6) (htons port),
         BindEvent.bindCall env.socketRet
           ⟨r.ai_family, ⟨htons port, r.ai_addr.rest⟩⟩] ∧
      (bindDgramFd env udpType addressValue none).2 =
        [BindEvent.socketCreate (selectedFamily udpType) env.socketRet,
         BindEvent.resolve (effectiveAddress udpType addressValue),
         BindEvent.bindCall env.socketRet r] := by
  unfold bindDgramFd
  rw [h]
  exact ⟨rfl, rfl⟩

/-- C6 witness: concrete instantiation on the "::1" resolver with port
9999; the resolved family is AF_INET6, so the sockaddr_in6 layout is
used and the port bytes become htons 9999. -/
theorem bindDgramFd_portOverlay_witness :
    (bindDgramFd ⟨loopback6Resolver, 5⟩ "udp6" (some "::1") (some 9999)).2 =
        [BindEvent.socketCreate AF_INET6 5,
         BindEvent.resolve "::1",
         BindEvent.portWrite PortLayout.sockaddr_in6 (htons 9999),
         BindEvent.bindCall 5 ⟨AF_INET6, ⟨htons 9999, loopback6Rest⟩⟩] ∧
      (bindDgramFd ⟨loopback6Resolver, 5⟩ "udp6" (some "::1") none).2 =
        [BindEvent.socketCreate AF_INET6 5,
         BindEvent.resolve "::1",
         BindEvent.bindCall 5 ⟨AF_INET6, ⟨0, loopback6Rest⟩⟩] :=
  bindDgramFd_portOverlay ⟨loopback6Resolver, 5⟩ "udp6" (some "::1")
    ⟨AF_INET6, ⟨0, loopback6Rest⟩⟩ 9999 rfl

/-- C7: the socket-type tag "udp6" selects AF_INET6, the tag "udp4"
selects AF_INET, and every other tag defaults to AF_INET. -/
theorem selectedFamily_spec :
    selectedFamily "udp6" = AF_INET6 ∧
      selectedFamily "udp4" = AF_INET ∧
      ∀ s : String, s ≠ "udp6" → selectedFamily s = AF_INET := by
  refine ⟨rfl, rfl, fun s hs => ?_⟩
  simp [selectedFamily, hs]

/-- C7 witness: an unrecognized tag defaults to AF_INET. -/
theorem selectedFamily_default_witness : selectedFamily "tcp" = AF_INET :=
  selectedFamily_spec.2.2 "tcp" (by decide)

/-- C8: when no address is supplied, the text submitted to resolution is
the selected family's wildcard — "0.0.0.0" for AF_INET and "::0" for
AF_INET6 — both of which denote the all-zeros address of their family
under the textual-form interpretation, and the resolve event on that
text appears in the trace of every bindDgramFd call without an address. -/
theorem effectiveAddress_wildcard_default :
    (∀ t : String, effectiveAddress t none =
        (if selectedFamily t = AF_INET then "0.0.0.0" else "::0")) ∧
      effectiveAddress "udp4" none = "0.0.0.0" ∧
      effectiveAddress "udp6" none = "::0" ∧
      textIsIPv4AllZeros "0.0.0.0" = true ∧
      textIsIPv6AllZeros "::0" = true ∧
      ∀ (env : BindEnv) (t : String) (p : Option Int),
        BindEvent.resolve (effectiveAddress t none) ∈
          (bindDgramFd env t none p).2 := by
  refine ⟨fun t => rfl, rfl, rfl, by decide, by decide, ?_⟩
  intro env t p
  unfold bindDgramFd
  cases h : env.resolver (effectiveAddress t none) with
  | none => simp
  | some r => cases p <;> simp
